import Mathlib

/-!
Verification of the multi-tenant SaaS backend core (FastAPI backend template):
a shallow embedding, in Lean, of the permission bitmask, the entitlement
evaluator, the terms-of-service gate, the credential resolver and the two
payment-provider webhook handlers, translated from the Python source under
`app/`, together with theorems settling the frozen claims about them.

Conventions of the embedding:
* Database rows become Lean structures; a whole database state is a `Db`
  record of row lists, and SQLAlchemy queries become `List.find?` /
  `List.filter` over those lists.
* UUIDs, e-mail addresses and external ids are opaque `String`s; datetimes
  are `Int` UNIX timestamps (ISO-8601 parsing of already-well-formed provider
  payloads is abstracted into the pre-parsed integer field).
* Raised exceptions become `Except PyError` results. `PyError.http` is a
  FastAPI `HTTPException`; `PyError.nameError` and `PyError.exception` model
  Python `NameError` and other unexpected exceptions.
* Python truthiness tests on optional strings (`if not x:`) are modelled by
  `truthy`, under which both `None` and the empty string are falsy.
-/

namespace FastapiBackend

/-- Python truthiness for an optional string: `None` and `""` are falsy. -/
def truthy : Option String → Bool
  | none => false
  | some s => !s.isEmpty

/-- Python `str.split(sep)` for a one-character separator, over the character
list (structural recursion, so closed evaluations reduce in the kernel). -/
def pySplitChars (sep : Char) : List Char → List (List Char)
  | [] => [[]]
  | c :: cs =>
    match pySplitChars sep cs with
    | [] => [[c]]
    | r :: rs => if c == sep then [] :: r :: rs else (c :: r) :: rs

/-- Python `str.split(sep)` for a one-character separator. -/
def pySplit (s : String) (sep : Char) : List String :=
  (pySplitChars sep s.toList).map String.mk

/-- Python slicing `s[:n]`. -/
def pyTake (s : String) (n : Nat) : String := String.mk (s.toList.take n)

/-- Python `str.startswith(pre)`. -/
def pyStartsWith (s pre : String) : Bool := pre.toList.isPrefixOf s.toList

/-- An error surfaced while handling a request: a FastAPI `HTTPException`
carrying a status code and a string detail, an `HTTPException` whose detail is
the structured body with an `error_code` field, a Python `NameError` for an
unbound name, or any other unexpected Python exception. -/
inductive PyError where
  | http (statusCode : Nat) (detail : String)
  | httpCoded (statusCode : Nat) (error_code : String) (message : String)
  | nameError (missing : String)
  | exception (msg : String)
deriving DecidableEq, Repr

/-- Whether an error is a FastAPI `HTTPException` (what the webhook handlers'
first `except` clause catches). -/
def PyError.isHTTPException : PyError → Bool
  | .http _ _ => true
  | .httpCoded _ _ _ => true
  | _ => false

/-! ## Permission bitmask (app/core/permissions.py)

`AppPermissions` is a Python `enum.Flag` whose `auto()` members get successive
powers of two starting at 1.  `TENANT_ADMIN_PERMISSIONS` is declared in the
class body as the bitwise OR of all twenty-four members, which makes it an
*alias* member: Python's `Enum.__members__` mapping lists it (and `NONE`)
alongside the canonical single-bit members. -/

/-- `AppPermissions.__members__`: the ordered name-to-value mapping of the
Flag enum, aliases included. -/
def appPermissionMembers : List (String × Nat) :=
  [("NONE", 0),
   ("USERS_READ", 1), ("USERS_INVITE", 2), ("USERS_UPDATE_ROLE", 4), ("USERS_DELETE", 8),
   ("ROLES_READ", 16), ("ROLES_CREATE", 32), ("ROLES_UPDATE", 64), ("ROLES_DELETE", 128),
   ("ITEMS_READ", 256), ("ITEMS_CREATE", 512), ("ITEMS_UPDATE", 1024), ("ITEMS_DELETE", 2048),
   ("CUSTOM_OBJECTS_CREATE", 4096), ("CUSTOM_OBJECTS_READ", 8192),
   ("CUSTOM_OBJECTS_UPDATE", 16384), ("CUSTOM_OBJECTS_DELETE", 32768),
   ("RECORDS_CREATE", 65536), ("RECORDS_READ", 131072),
   ("RECORDS_UPDATE", 262144), ("RECORDS_DELETE", 524288),
   ("CUSTOMERS_CREATE", 1048576), ("CUSTOMERS_READ", 2097152),
   ("CUSTOMERS_UPDATE", 4194304), ("CUSTOMERS_DELETE", 8388608),
   ("TENANT_ADMIN_PERMISSIONS", 16777215)]

/-- The twenty-four canonical single-bit permission names, in declaration
order (excludes the zero member `NONE` and the composite alias). -/
def atomicPermissionNames : List String :=
  ["USERS_READ", "USERS_INVITE", "USERS_UPDATE_ROLE", "USERS_DELETE",
   "ROLES_READ", "ROLES_CREATE", "ROLES_UPDATE", "ROLES_DELETE",
   "ITEMS_READ", "ITEMS_CREATE", "ITEMS_UPDATE", "ITEMS_DELETE",
   "CUSTOM_OBJECTS_CREATE", "CUSTOM_OBJECTS_READ",
   "CUSTOM_OBJECTS_UPDATE", "CUSTOM_OBJECTS_DELETE",
   "RECORDS_CREATE", "RECORDS_READ", "RECORDS_UPDATE", "RECORDS_DELETE",
   "CUSTOMERS_CREATE", "CUSTOMERS_READ", "CUSTOMERS_UPDATE", "CUSTOMERS_DELETE"]

/-- `AppPermissions[p_name].value`: the integer value of a member name
(`0` for a name that is not a member; the Pydantic validator on `RoleCreate`
rejects such names before this is ever reached). -/
def permissionValue (p : String) : Nat :=
  (((appPermissionMembers.find? (fun m => m.1 == p))).map (fun m => m.2)).getD 0

/-- The bit position of a canonical member: its index in the members list,
shifted past the zero member `NONE`. -/
def permissionBitIndex (p : String) : Nat :=
  (appPermissionMembers.findIdx (fun m => m.1 == p)) - 1

/-- `RoleCreate.to_permission_set_int` (app/schemas/role_schemas.py): fold the
requested permission names into an integer bitmask with bitwise OR. -/
def to_permission_set_int (permissions : List String) : Nat :=
  permissions.foldl (fun mask p => mask ||| permissionValue p) 0

/-- The Pydantic validator on `RoleCreate.permissions`: a requested name must
be a key of `AppPermissions.__members__`. -/
def validPermissionName (p : String) : Bool :=
  appPermissionMembers.any (fun m => m.1 == p)

/-- `RoleRead.permissions` (app/schemas/role_schemas.py): decode a stored
`permission_set` integer back into the list of member names, walking
`AppPermissions.__members__` in order, skipping `"NONE"`, and keeping every
member all of whose bits are set in the mask. -/
def roleReadPermissions (permission_set : Option Nat) : List String :=
  let permission_mask := permission_set.getD 0
  appPermissionMembers.filterMap (fun m =>
    if m.1 != "NONE" && (permission_mask &&& m.2) == m.2 then some m.1 else none)

/-! ## Data model (app/db/models.py) -/

/-- A `tenants` row (the fields the verified core reads and writes). -/
structure TenantRow where
  id : String
  plan_id : Option String
  subscription_status : String
  current_period_ends_at : Option Int
  external_subscription_id : Option String
  external_customer_id : Option String
  updated_at : Option Int
deriving DecidableEq, Repr

/-- A `users` row. -/
structure UserRow where
  id : String
  email : String
  tenant_id : Option String
  role_id : Option String
  terms_accepted_at : Option Int
deriving DecidableEq, Repr

/-- A `user_roles` row. -/
structure UserRoleRow where
  id : String
  tenant_id : String
  name : String
  permission_set : Option Nat
  is_admin_role : Bool
deriving DecidableEq, Repr

/-- A `plan_entitlements` row. -/
structure PlanEntitlementRow where
  feature_slug : String
  entitlement_type : String
  value : Int
deriving DecidableEq, Repr

/-- A `plans` row together with its entitlements relationship. -/
structure PlanRow where
  id : String
  name : String
  external_product_id : Option String
  external_price_id : Option String
  entitlements : List PlanEntitlementRow
deriving DecidableEq, Repr

/-- A `usage_records` row (append-only usage ledger). -/
structure UsageRecordRow where
  tenant_id : String
  feature_slug : String
  usage_amount : Int
  recorded_at : Int
deriving DecidableEq, Repr

/-- An `api_keys` row ( key_prefix is the first 8 secret characters behind the
fixed `sk_live_` tag, used for the O(1) lookup before hash verification). -/
structure ApiKeyRow where
  id : String
  user_id : String
  key_prefix : String
  hashed_key : String
deriving DecidableEq, Repr

/-- The payload stored on a webhook event row: the parsed provider body. -/
inductive WebhookPayloadKind where
  | dodoKind
  | stripeKind
deriving DecidableEq, Repr

/-- A Dodo webhook body: `payload["data"]["customer"]`. -/
structure DodoCustomer where
  email : Option String
deriving DecidableEq, Repr

/-- A Dodo webhook body: `payload["data"]` (`payload.get("data", {})`, so a
missing object is the all-`none` record). -/
structure DodoData where
  subscription_id : Option String
  customer : DodoCustomer
  product_id : Option String
  period_ends_at : Option Int
deriving DecidableEq, Repr

/-- A Dodo webhook body. `timestamp` is the ISO timestamp, pre-parsed to an
integer; `none` models an absent key (on which the handler's
`payload.get("timestamp").replace(...)` raises `AttributeError`). -/
structure DodoPayload where
  event_kind : Option String
  timestamp : Option Int
  data : DodoData
deriving DecidableEq, Repr

/-- A Stripe event body: `event["data"]["object"]`. `cancel_at_period_end`
is the truthiness of `data_object.get("cancel_at_period_end")`. -/
structure StripeDataObject where
  client_reference_id : Option String
  customer : Option String
  mode : Option String
  subscription : Option String
  status : Option String
  cancel_at_period_end : Bool
deriving DecidableEq, Repr

/-- A verified Stripe event: `event["id"]`, `event["type"]`,
`event["created"]` (UNIX seconds) and the nested data object. -/
structure StripePayload where
  id : String
  event_kind : String
  created : Int
  data_object : StripeDataObject
deriving DecidableEq, Repr

/-- The stored payload of a `webhook_events` row. -/
inductive WebhookPayload where
  | dodo (p : DodoPayload)
  | stripe (p : StripePayload)
deriving DecidableEq, Repr

/-- A `webhook_events` row: `id` is the provider's idempotency key. -/
structure WebhookEventRow where
  id : String
  event_type : Option String
  payload : WebhookPayload
  processed_successfully : Bool
deriving DecidableEq, Repr

/-- A whole database state: one list per table the core touches.
SQLAlchemy queries become `find?` / `filter` over these lists. -/
structure Db where
  tenants : List TenantRow
  users : List UserRow
  roles : List UserRoleRow
  plans : List PlanRow
  usage_records : List UsageRecordRow
  api_keys : List ApiKeyRow
  webhook_events : List WebhookEventRow
deriving DecidableEq, Repr

/-- Replace the tenant row with the same id (ORM attribute mutation that the
enclosing transaction later commits). -/
def Db.updateTenant (db : Db) (t : TenantRow) : Db :=
  { db with tenants := db.tenants.map (fun x => if x.id == t.id then t else x) }

/-- Set `processed_successfully = True` on the webhook event row. -/
def Db.markEventProcessed (db : Db) (event_id : String) : Db :=
  { db with webhook_events := db.webhook_events.map (fun e =>
      if e.id == event_id then { e with processed_successfully := true } else e) }

/-- Insert a new webhook event row. -/
def Db.insertEvent (db : Db) (e : WebhookEventRow) : Db :=
  { db with webhook_events := db.webhook_events ++ [e] }

/-! ## Credential resolver (app/api/v1/dependencies.py, app/api/v1/security.py) -/

/-- The resolved per-request identity (`AuthenticatedUser` in
app/api/v1/security.py). -/
structure AuthenticatedUser where
  id : String
  tenant_id : Option String
  email : Option String
  is_superadmin : Bool
deriving DecidableEq, Repr

/-- The configuration values the resolver reads (app/core/config.py). -/
structure Settings where
  SUPERADMIN_USER_ID : String
deriving DecidableEq, Repr

/-- A decoded, signature-verified JWT: the `sub` and `email` claims, plus
every remaining claim of the token (never consulted by the resolver). -/
structure JwtPayload where
  sub : Option String
  email : Option String
  other_claims : List (String × String)
deriving DecidableEq, Repr

/-- The bearer-token branch of `get_auth_rls_session`: `get_token_data`
rejects a token without a `sub` claim (401); the caller then rejects a falsy
user id (401 "Invalid JWT."), computes the superadmin flag by comparing the
subject with `settings.SUPERADMIN_USER_ID`, looks the profile up, fails 404
for a non-superadmin with no profile, and builds the `AuthenticatedUser`. -/
def resolve_jwt_identity (settings : Settings) (db : Db) (payload : JwtPayload) :
    Except PyError AuthenticatedUser :=
  match payload.sub with
  | none => .error (.http 401 "User identifier (sub) not found in token.")
  | some user_id =>
    if !(truthy (some user_id)) then .error (.http 401 "Invalid JWT.")
    else
      let is_super := user_id == settings.SUPERADMIN_USER_ID
      let user_in_db := db.users.find? (fun u => u.id == user_id)
      if !is_super && user_in_db.isNone then
        .error (.http 404 "User profile not found.")
      else
        .ok { id := user_id, email := payload.email, is_superadmin := is_super,
              tenant_id := user_in_db.bind (fun u => u.tenant_id) }

/-- The API-key branch of `get_auth_rls_session`: split the presented key on
underscores, require exactly `sk`/`live`/secret, look the row up by the
8-character secret-derived lookup tag, verify the full key against the stored
hash (`verify` abstracts the bcrypt comparison), resolve the owning user and
build an `AuthenticatedUser` with `is_superadmin=False`.  (The surrounding
privileged-session block and the best-effort `last_used_at` stamp do not
affect the resolved identity.) -/
def resolve_api_key_identity (verify : String → String → Bool) (db : Db)
    (api_key : String) : Except PyError AuthenticatedUser :=
  let parts := pySplit api_key '_'
  if parts.length != 3 || parts[0]? != some "sk" || parts[1]? != some "live" then
    .error (.http 401 "Invalid API key format.")
  else
    let secret_part := (parts[2]?).getD ""
    let prefix_part := pyTake secret_part 8
    let key_to_find := "sk_live_" ++ prefix_part
    match db.api_keys.find? (fun k => ApiKeyRow.key_prefix k == key_to_find) with
    | none => .error (.http 401 "Invalid API key.")
    | some db_api_key =>
      if !(verify api_key db_api_key.hashed_key) then
        .error (.http 401 "Invalid API key.")
      else
        match db.users.find? (fun u => u.id == db_api_key.user_id) with
        | none => .error (.http 401 "User for API key not found.")
        | some db_user =>
          .ok { id := db_user.id, email := some db_user.email,
                tenant_id := db_user.tenant_id, is_superadmin := false }

/-! ## Guard dependencies (app/api/v1/dependencies.py) -/

/-- The structured 403 raised by `require_terms_accepted`. -/
def termsNotAcceptedError : PyError :=
  .httpCoded 403 "TERMS_NOT_ACCEPTED" "Terms of Service not accepted."

/-- `require_terms_accepted`: superadmins pass; otherwise the re-fetched
profile must exist and have a terms-acceptance timestamp. -/
def require_terms_accepted (db : Db) (user : AuthenticatedUser) :
    Except PyError Unit :=
  if user.is_superadmin then .ok ()
  else
    match db.users.find? (fun u => u.id == user.id) with
    | none => .error termsNotAcceptedError
    | some db_user =>
      match db_user.terms_accepted_at with
      | none => .error termsNotAcceptedError
      | some _ => .ok ()

/-- The name of a permission bit as rendered into the 403 detail. -/
def permissionName (p : String) : String := p

/-- `require_permission(required)`'s inner checker: superadmins pass;
otherwise re-fetch the user with the role relationship, fail 403 when no role
is assigned, then require every bit of the requested permission inside the
role's `permission_set` (`or 0` for a null mask). The failure detail names the
missing permission. -/
def require_permission (required : String) (db : Db) (user : AuthenticatedUser) :
    Except PyError Unit :=
  if user.is_superadmin then .ok ()
  else
    match db.users.find? (fun u => u.id == user.id) with
    | none => .error (.http 403 "User has no assigned role.")
    | some db_user =>
      match db_user.role_id.bind (fun rid => db.roles.find? (fun r => r.id == rid)) with
      | none => .error (.http 403 "User has no assigned role.")
      | some role =>
        let current_permissions := role.permission_set.getD 0
        if (current_permissions &&& permissionValue required) == permissionValue required then
          .ok ()
        else
          .error (.http 403 ("User lacks " ++ permissionName required ++ " permission."))

/-! ## Usage CRUD (app/crud/usage_crud.py) -/

/-- The names the module imports from `datetime`
(`from datetime import datetime`): `timedelta` is not among them, so the
`period_start` line of `get_current_usage` references an unbound name and
raises `NameError` whenever it is reached. -/
def usage_crud_datetime_imports : List String := ["datetime"]

/-- `get_current_usage`: 0 without a tenant or period end; otherwise the sum
of the tenant's usage amounts for the feature recorded inside
`[period_end - 30 days, period_end]` — except that computing `period_start`
evaluates the unimported name `timedelta`, which raises `NameError`. -/
def get_current_usage (db : Db) (tenant_id : Option String) (feature_slug : String) :
    Except PyError Int :=
  match tenant_id with
  | none => .ok 0
  | some tid =>
    match db.tenants.find? (fun t => t.id == tid) with
    | none => .ok 0
    | some tenant =>
      match tenant.current_period_ends_at with
      | none => .ok 0
      | some period_end =>
        if "timedelta" ∈ usage_crud_datetime_imports then
          let period_start := period_end - 30 * 86400
          .ok (((db.usage_records.filter (fun r =>
              r.tenant_id == tid && r.feature_slug == feature_slug &&
              period_start ≤ r.recorded_at && r.recorded_at ≤ period_end)).map
              (fun r => r.usage_amount)).sum)
        else
          .error (.nameError "timedelta")

/-! ## Entitlement evaluator (app/api/v1/dependencies.py, check_entitlement) -/

/-- Tenant lookup by the caller's tenant id (a null id matches no row). -/
def findTenant (db : Db) (tenant_id : Option String) : Option TenantRow :=
  tenant_id.bind (fun tid => db.tenants.find? (fun t => t.id == tid))

/-- The tenant's plan relationship. -/
def tenantPlan (db : Db) (tenant : TenantRow) : Option PlanRow :=
  tenant.plan_id.bind (fun pid => db.plans.find? (fun p => p.id == pid))

/-- Live user count of a tenant (the `LIMIT`/`max_users` check;
a null caller tenant id matches no row). -/
def tenantUserCount (db : Db) (tenant_id : Option String) : Nat :=
  match tenant_id with
  | none => 0
  | some tid => (db.users.filter (fun u => u.tenant_id == some tid)).length

/-- `check_entitlement(feature_slug, consumed_amount)`'s inner checker. -/
def check_entitlement (feature_slug : String) (consumed_amount : Int)
    (db : Db) (user : AuthenticatedUser) : Except PyError Unit :=
  if user.is_superadmin then .ok ()
  else
    match findTenant db user.tenant_id with
    | none => .error (.http 402 "No active subscription found.")
    | some tenant =>
      match tenantPlan db tenant with
      | none => .error (.http 402 "No active subscription found.")
      | some plan =>
        if tenant.subscription_status != "active" then
          .error (.http 402 "No active subscription found.")
        else
          match plan.entitlements.find? (fun e => e.feature_slug == feature_slug) with
          | none =>
            .error (.http 402 ("Your plan does not include the feature: " ++ feature_slug ++ "."))
          | some entitlement =>
            if entitlement.entitlement_type == "FLAG" then
              if entitlement.value != 1 then
                .error (.http 402 "This feature is not enabled for your plan.")
              else .ok ()
            else if entitlement.entitlement_type == "LIMIT" then
              if feature_slug == "max_users" then
                if (tenantUserCount db user.tenant_id : Int) ≥ entitlement.value then
                  .error (.http 402 "You have reached the limit of users for your plan.")
                else .ok ()
              else .ok ()
            else if entitlement.entitlement_type == "METER" then
              match get_current_usage db user.tenant_id feature_slug with
              | .error e => .error e
              | .ok current_usage =>
                if current_usage + consumed_amount > entitlement.value then
                  .error (.http 402 "You have exceeded your usage quota for this feature.")
                else .ok ()
            else .ok ()

/-- The dependency chain of the invite endpoint
(app/api/v1/routers/users.py, `invite_new_user`): FastAPI resolves
`get_current_user` — which runs `require_terms_accepted` — then the
`require_permission(USERS_INVITE)` checker, then the
`check_entitlement("max_users")` checker, in declaration order. -/
def invite_guard_chain (db : Db) (user : AuthenticatedUser) : Except PyError Unit := do
  require_terms_accepted db user
  require_permission "USERS_INVITE" db user
  check_entitlement "max_users" 1 db user

/-! ## User CRUD (app/crud/user_crud.py) -/

/-- The last-admin count of `update_user_role`: the subquery collects the ids
of the tenant's admin-flagged roles, and the count is of the tenant's users
assigned to any of those roles. -/
def tenantAdminCount (db : Db) (tenant_id : Option String) : Nat :=
  let admin_role_ids := (db.roles.filter (fun r =>
      some r.tenant_id == tenant_id && r.is_admin_role)).map (fun r => r.id)
  (db.users.filter (fun u =>
      u.tenant_id == tenant_id &&
      (match u.role_id with
       | some rid => admin_role_ids.contains rid
       | none => false))).length

/-- The role reassignment `update_user_role` performs when the safeguard
passes. -/
def reassignRole (db : Db) (user_id_to_update : String) (new_role_id : String) : Db :=
  { db with users := db.users.map (fun u =>
      if u.id == user_id_to_update then { u with role_id := some new_role_id } else u) }

/-- `update_user_role`: fetch the target user and the new role, refuse to
demote the last admin-role holder of the tenant, otherwise reassign the role.
`ValueError` messages become `Except.error` strings. -/
def update_user_role (db : Db) (user_id_to_update : String) (new_role_id : String) :
    Except String Db :=
  match db.users.find? (fun u => u.id == user_id_to_update) with
  | none => .error "User to update not found."
  | some user_to_update =>
    match db.roles.find? (fun r => r.id == new_role_id) with
    | none => .error "Role to assign not found."
    | some new_role =>
      let current_role :=
        user_to_update.role_id.bind (fun rid => db.roles.find? (fun r => r.id == rid))
      let is_demoting_an_admin :=
        (match current_role with
         | some r => r.is_admin_role
         | none => false) && !new_role.is_admin_role
      if is_demoting_an_admin then
        if tenantAdminCount db user_to_update.tenant_id ≤ 1 then
          .error "Cannot remove the last admin from the tenant. Please assign a new admin first."
        else .ok (reassignRole db user_id_to_update new_role_id)
      else .ok (reassignRole db user_id_to_update new_role_id)

/-- The parameter names `update_user_role` accepts
(app/crud/user_crud.py, besides `db`). -/
def update_user_role_param_names : List String :=
  ["user_id_to_update", "new_role_id", "updater_id"]

/-- The keyword-argument names the `update_user_profile` route passes to
`user_crud.update_user_role` (app/api/v1/routers/users.py, besides `db`). -/
def update_user_profile_call_kwargs : List String :=
  ["user_id", "role_id", "updater_id"]

/-! ## Webhook processors (app/api/v1/routers/webhooks.py) -/

/-- Tenant resolution of `process_stripe_event`: checkout events resolve by
the embedded `client_reference_id` (missing one is a 400), everything else by
the provider customer id when present. -/
def resolve_stripe_tenant (db : Db) (event_kind : String)
    (data_object : StripeDataObject) : Except PyError (Option TenantRow) :=
  if pyStartsWith event_kind "checkout.session." then
    if !(truthy data_object.client_reference_id) then
      .error (.http 400 "Missing client_reference_id in checkout session.")
    else
      .ok (db.tenants.find? (fun t => some t.id == data_object.client_reference_id))
  else if truthy data_object.customer then
    .ok (db.tenants.find? (fun t => t.external_customer_id == data_object.customer))
  else
    .ok none

/-- Live subscription details fetched from Stripe for a checkout completion:
the nested price id (safely navigated, absent parts collapse to `none`) and
the period end. -/
structure StripeSubscription where
  price_id : Option String
  current_period_end : Option Int
deriving DecidableEq, Repr

/-- The state-machine step of `process_stripe_event`, after tenant resolution
and the staleness check. `retrieve` abstracts `stripe.Subscription.retrieve`;
its failure becomes the 500 the code raises. -/
def stripe_state_transition (retrieve : String → Except String StripeSubscription)
    (db : Db) (tenant : TenantRow) (event_kind : String)
    (data_object : StripeDataObject) : Except PyError Db :=
  if event_kind == "checkout.session.completed" then
    if data_object.mode == some "subscription" then
      if !(truthy data_object.subscription) || !(truthy data_object.customer) then
        .error (.http 400 "Subscription or Customer ID missing in webhook payload.")
      else
        match data_object.subscription with
        | none => .error (.http 400 "Subscription or Customer ID missing in webhook payload.")
        | some subscription_id =>
          match retrieve subscription_id with
          | .error _ => .error (.http 500 "Could not retrieve subscription details from Stripe.")
          | .ok subscription =>
            if !(truthy subscription.price_id) then
              .error (.http 400 "Price ID not found in Stripe subscription object.")
            else
              let plan :=
                db.plans.find? (fun p => p.external_price_id == subscription.price_id)
              let tenant1 : TenantRow :=
                { tenant with
                  plan_id := plan.map (fun p => p.id),
                  subscription_status := "active",
                  external_subscription_id := some subscription_id,
                  external_customer_id := data_object.customer,
                  current_period_ends_at :=
                    match subscription.current_period_end with
                    | some pe => some pe
                    | none => tenant.current_period_ends_at }
              .ok (db.updateTenant tenant1)
    else .ok db
  else if event_kind == "invoice.payment_failed" then
    .ok (db.updateTenant { tenant with subscription_status := "past_due" })
  else if event_kind == "customer.subscription.deleted" ||
          event_kind == "customer.subscription.updated" then
    if data_object.cancel_at_period_end then
      .ok (db.updateTenant { tenant with subscription_status := "canceled" })
    else if data_object.status == some "canceled" || data_object.status == some "unpaid" then
      .ok (db.updateTenant { tenant with subscription_status := "inactive" })
    else .ok db
  else .ok db

/-- `process_stripe_event`: resolve the tenant, skip (and succeed without
mutating anything) when the event's `created` timestamp is older than the
tenant's `updated_at`, otherwise run the state machine.  A row whose payload
is not a Stripe body would fail on the nested dictionary accesses. -/
def process_stripe_event (retrieve : String → Except String StripeSubscription)
    (db : Db) (event : WebhookEventRow) : Except PyError Db :=
  match event.event_type, event.payload with
  | some event_kind, .stripe payload =>
    match resolve_stripe_tenant db event_kind payload.data_object with
    | .error e => .error e
    | .ok none =>
      .error (.http 404 ("Could not find tenant for event " ++ event_kind ++
        " with ID " ++ event.id ++ "."))
    | .ok (some tenant) =>
      match tenant.updated_at with
      | some last_update =>
        if payload.created < last_update then .ok db
        else stripe_state_transition retrieve db tenant event_kind payload.data_object
      | none => stripe_state_transition retrieve db tenant event_kind payload.data_object
  | _, _ => .error (.exception "KeyError")

/-- The state-machine step of the Dodo `process_event`, after the staleness
check. -/
def dodo_state_transition (db : Db) (tenant : TenantRow) (event_type : Option String)
    (subscription_data : DodoData) (external_subscription_id : String) :
    Except PyError Db :=
  if event_type == some "subscription.active" || event_type == some "subscription.renewed" then
    let plan : Option PlanRow :=
      match subscription_data.product_id with
      | none => none
      | some pid => db.plans.find? (fun p => p.external_product_id == some pid)
    match plan with
    | none =>
      .error (.http 404 ("Plan with external_id " ++
        (subscription_data.product_id.getD "None") ++ " not found."))
    | some plan_row =>
      let tenant1 : TenantRow :=
        { tenant with
          plan_id := some plan_row.id,
          subscription_status := "active",
          external_subscription_id := some external_subscription_id,
          current_period_ends_at :=
            match subscription_data.period_ends_at with
            | some pe => some pe
            | none => tenant.current_period_ends_at }
      .ok (db.updateTenant tenant1)
  else if event_type == some "subscription.on_hold" || event_type == some "subscription.failed" then
    .ok (db.updateTenant { tenant with subscription_status := "past_due" })
  else if event_type == some "subscription.cancelled" || event_type == some "subscription.expired" then
    .ok (db.updateTenant { tenant with subscription_status := "inactive" })
  else .ok db

/-- `process_event` (Dodo): parse the payload timestamp, require the
subscription id and customer e-mail, resolve user then tenant by e-mail, skip
(and succeed without mutating anything) when the event timestamp is older
than the tenant's `current_period_ends_at`, otherwise run the state machine. -/
def process_event (db : Db) (event : WebhookEventRow) : Except PyError Db :=
  match event.payload with
  | .stripe _ => .error (.exception "AttributeError")
  | .dodo payload =>
    match payload.timestamp with
    | none => .error (.exception "AttributeError")
    | some event_timestamp =>
      let subscription_data := payload.data
      if !(truthy subscription_data.subscription_id) ||
         !(truthy subscription_data.customer.email) then
        .error (.http 404 "Webhook missing key identifiers.")
      else
        match subscription_data.subscription_id, subscription_data.customer.email with
        | some external_subscription_id, some customer_email =>
          match db.users.find? (fun u => u.email == customer_email) with
          | none => .error (.http 404 ("Tenant for email " ++ customer_email ++ " not found."))
          | some user =>
            match user.tenant_id with
            | none => .error (.http 404 ("Tenant for email " ++ customer_email ++ " not found."))
            | some tid =>
              match db.tenants.find? (fun t => t.id == tid) with
              | none => .error (.http 404 ("Tenant record " ++ tid ++ " not found."))
              | some tenant =>
                match tenant.current_period_ends_at with
                | some period_end =>
                  if event_timestamp < period_end then .ok db
                  else
                    dodo_state_transition db tenant event.event_type subscription_data
                      external_subscription_id
                | none =>
                  dodo_state_transition db tenant event.event_type subscription_data
                    external_subscription_id
        | _, _ => .error (.http 404 "Webhook missing key identifiers.")

/-! ## Webhook handlers (app/api/v1/routers/webhooks.py) -/

/-- Outcome of the Dodo handler, with the HTTP status it is served with
(the route's success status is 202). -/
inductive DodoResponse where
  | badRequest
  | duplicate
  | processed
  | businessError (detail : String)
  | internalError
deriving DecidableEq, Repr

/-- HTTP status of a Dodo handler outcome. -/
def DodoResponse.httpStatus : DodoResponse → Nat
  | .badRequest => 400
  | .internalError => 500
  | _ => 202

/-- Outcome of the Stripe handler (the route's success status is 200; note
a caught signature-verification `HTTPException` is *returned* as a body, so
it is served with 200, not rejected). -/
inductive StripeResponse where
  | sigError (detail : String)
  | duplicate
  | processed
  | businessError (detail : String)
  | unexpectedError
deriving DecidableEq, Repr

/-- HTTP status of a Stripe handler outcome. -/
def StripeResponse.httpStatus : StripeResponse → Nat
  | .unexpectedError => 500
  | _ => 200

/-- The fresh `WebhookEvent` row the Dodo handler stores on first sight of an
event id (`event_type` is `payload.get("type")`). -/
def dodoNewRow (event_id : String) (payload : DodoPayload) : WebhookEventRow :=
  { id := event_id, event_type := payload.event_kind,
    payload := .dodo payload, processed_successfully := false }

/-- The fresh `WebhookEvent` row the Stripe handler stores on first sight of
an event id. -/
def stripeNewRow (event : StripePayload) : WebhookEventRow :=
  { id := event.id, event_type := some event.event_kind,
    payload := .stripe event, processed_successfully := false }

/-- `handle_dodo_webhook`.  `sig` is the outcome of header parsing plus
signature verification (any failure is turned into a 400 rejection);
`event_id` is the `webhook-id` header.  An existing event row — whatever its
`processed_successfully` flag — short-circuits to a duplicate acknowledgment.
Otherwise the new row is inserted and committed on its own before `process`
runs, so a later rollback only reverts the business mutations.  A
business-logic `HTTPException` is acknowledged (202); any other exception
becomes a 500 so the provider retries. -/
def handle_dodo_webhook (process : Db → WebhookEventRow → Except PyError Db)
    (db : Db) (event_id : String) (sig : Except PyError DodoPayload) :
    Db × DodoResponse :=
  match sig with
  | .error _ => (db, .badRequest)
  | .ok payload =>
    match db.webhook_events.find? (fun e => e.id == event_id) with
    | some _ => (db, .duplicate)
    | none =>
      let new_event := dodoNewRow event_id payload
      let db1 := db.insertEvent new_event
      match process db1 new_event with
      | .ok db2 => (Db.markEventProcessed db2 event_id, .processed)
      | .error (.http _ detail) => (db1, .businessError detail)
      | .error (.httpCoded _ _ message) => (db1, .businessError message)
      | .error _ => (db1, .internalError)

/-- `handle_stripe_webhook`.  A signature-verification `HTTPException` is
caught and *returned* (status 200); any other verification exception
propagates (500).  An existing row marked successful short-circuits to a
duplicate acknowledgment; an existing unsuccessful row is reprocessed as a
retry; a new row is added and only flushed, so an error rolls the insert back
together with the business mutations.  Business `HTTPException`s are
acknowledged (200); anything else re-raises (500). -/
def handle_stripe_webhook (process : Db → WebhookEventRow → Except PyError Db)
    (db : Db) (sig : Except PyError StripePayload) : Db × StripeResponse :=
  match sig with
  | .error (.http _ detail) => (db, .sigError detail)
  | .error (.httpCoded _ _ message) => (db, .sigError message)
  | .error _ => (db, .unexpectedError)
  | .ok event =>
    match db.webhook_events.find? (fun e => e.id == event.id) with
    | some row =>
      if row.processed_successfully then (db, .duplicate)
      else
        match process db row with
        | .ok db2 => (Db.markEventProcessed db2 event.id, .processed)
        | .error (.http _ detail) => (db, .businessError detail)
        | .error (.httpCoded _ _ message) => (db, .businessError message)
        | .error _ => (db, .unexpectedError)
    | none =>
      let row := stripeNewRow event
      let db1 := db.insertEvent row
      match process db1 row with
      | .ok db2 => (Db.markEventProcessed db2 event.id, .processed)
      | .error (.http _ detail) => (db, .businessError detail)
      | .error (.httpCoded _ _ message) => (db, .businessError message)
      | .error _ => (db, .unexpectedError)

/-! ## Concrete fixtures (used by closed evaluation theorems) -/

/-- An empty database. -/
def dbEmpty : Db :=
  { tenants := [], users := [], roles := [], plans := [], usage_records := [],
    api_keys := [], webhook_events := [] }

/-- A Stripe-API stub whose retrieval always fails (never reached by the
evaluations that use it). -/
def retrieve0 : String → Except String StripeSubscription := fun _ => .error "unavailable"

/-- A tenant with an active subscription on plan `p1` and a current period
ending at timestamp 10000000. -/
def tenantC3 : TenantRow :=
  { id := "t1", plan_id := some "p1", subscription_status := "active",
    current_period_ends_at := some 10000000, external_subscription_id := none,
    external_customer_id := none, updated_at := none }

/-- A plan with a `METER` entitlement of 100 for `api_calls`. -/
def planC3 : PlanRow :=
  { id := "p1", name := "Pro", external_product_id := none, external_price_id := none,
    entitlements := [{ feature_slug := "api_calls", entitlement_type := "METER", value := 100 }] }

/-- Database state with 80 units of `api_calls` usage recorded inside the
current billing window of tenant `t1`. -/
def dbC3 : Db :=
  { tenants := [tenantC3],
    users := [{ id := "u1", email := "owner@t1.example", tenant_id := some "t1",
                role_id := none, terms_accepted_at := some 1 }],
    roles := [], plans := [planC3],
    usage_records := [{ tenant_id := "t1", feature_slug := "api_calls",
                        usage_amount := 80, recorded_at := 9000000 }],
    api_keys := [], webhook_events := [] }

/-- The authenticated (non-superadmin) caller of tenant `t1`. -/
def userC3 : AuthenticatedUser :=
  { id := "u1", tenant_id := some "t1", email := none, is_superadmin := false }

/-- A Dodo `subscription.active` payload for subscription `sub1` of customer
`owner@t1.example`. -/
def dodoPayload0 : DodoPayload :=
  { event_kind := some "subscription.active", timestamp := some 5,
    data := { subscription_id := some "sub1",
              customer := { email := some "owner@t1.example" },
              product_id := some "prod1", period_ends_at := some 99 } }

/-- Database state already holding the Dodo event row `evt_1`, *not* marked
successfully processed (a previously failed delivery). -/
def dbC1 : Db :=
  { dbC3 with webhook_events :=
      [{ id := "evt_1", event_type := some "subscription.active",
         payload := .dodo dodoPayload0, processed_successfully := false }] }

/-- A tenant on plan `p10` with an active subscription. -/
def tenantC10 : TenantRow :=
  { id := "t1", plan_id := some "p10", subscription_status := "active",
    current_period_ends_at := some 10000000, external_subscription_id := none,
    external_customer_id := none, updated_at := none }

/-- A plan with a `LIMIT` entitlement of 1 for the slug `max_projects`,
which the evaluator never enforces. -/
def planC10 : PlanRow :=
  { id := "p10", name := "Starter", external_product_id := none, external_price_id := none,
    entitlements := [{ feature_slug := "max_projects", entitlement_type := "LIMIT", value := 1 }] }

/-- Database state with three users in tenant `t1` on plan `p10`. -/
def dbC10 : Db :=
  { tenants := [tenantC10],
    users := [{ id := "u1", email := "a@t1.example", tenant_id := some "t1",
                role_id := none, terms_accepted_at := some 1 },
              { id := "u2", email := "b@t1.example", tenant_id := some "t1",
                role_id := none, terms_accepted_at := some 1 },
              { id := "u3", email := "c@t1.example", tenant_id := some "t1",
                role_id := none, terms_accepted_at := some 1 }],
    roles := [], plans := [planC10], usage_records := [],
    api_keys := [], webhook_events := [] }

/-- A superadmin identity. -/
def superUser0 : AuthenticatedUser :=
  { id := "sa", tenant_id := none, email := none, is_superadmin := true }

/-- A non-superadmin caller mapped to profile `u1`. -/
def editorUser0 : AuthenticatedUser :=
  { id := "u1", tenant_id := some "t1", email := none, is_superadmin := false }

/-- A non-superadmin caller mapped to profile `u2`, which has no role. -/
def rolelessUser0 : AuthenticatedUser :=
  { id := "u2", tenant_id := some "t1", email := none, is_superadmin := false }

/-- Database for the permission-check evaluations: an `Editor` role holding
`ITEMS_READ | ITEMS_CREATE` (mask 768), a user assigned to it, and a user
with no role. -/
def dbC6 : Db :=
  { tenants := [], plans := [], usage_records := [], api_keys := [], webhook_events := [],
    users := [{ id := "u1", email := "e@t1.example", tenant_id := some "t1",
                role_id := some "r1", terms_accepted_at := some 1 },
              { id := "u2", email := "f@t1.example", tenant_id := some "t1",
                role_id := none, terms_accepted_at := some 1 }],
    roles := [{ id := "r1", tenant_id := "t1", name := "Editor",
                permission_set := some 768, is_admin_role := false }] }

/-- A non-superadmin caller mapped to profile `u9`, which never accepted the
terms of service. -/
def noTermsUser0 : AuthenticatedUser :=
  { id := "u9", tenant_id := some "t1", email := none, is_superadmin := false }

/-- Database for the terms-gate evaluation: the caller holds the full-admin
role of an actively subscribed tenant but has `terms_accepted_at = None`. -/
def dbC5 : Db :=
  { tenants := [tenantC10], plans := [planC10], usage_records := [],
    api_keys := [], webhook_events := [],
    users := [{ id := "u9", email := "n@t1.example", tenant_id := some "t1",
                role_id := some "r1", terms_accepted_at := none }],
    roles := [{ id := "r1", tenant_id := "t1", name := "Admin",
                permission_set := some 16777215, is_admin_role := true }] }

/-- Configuration naming `admin-1` as the superadmin subject. -/
def settingsC8 : Settings := { SUPERADMIN_USER_ID := "admin-1" }

/-- A verified token whose subject is the configured superadmin, carrying
unrelated extra claims. -/
def jwtAdmin0 : JwtPayload :=
  { sub := some "admin-1", email := some "root@example.com",
    other_claims := [("aud", "authenticated"), ("role", "service_role")] }

/-- Database for the credential-resolution evaluations: one user `u1` owning
the API key with lookup tag `sk_live_abcdefgh`. -/
def dbC8 : Db :=
  { tenants := [], roles := [], plans := [], usage_records := [], webhook_events := [],
    users := [{ id := "u1", email := "e@t1.example", tenant_id := some "t1",
                role_id := none, terms_accepted_at := some 1 }],
    api_keys := [{ id := "k1", user_id := "u1", key_prefix := "sk_live_abcdefgh",
                   hashed_key := "hash-of-the-key" }] }

/-- A bcrypt-verification stub accepting exactly the stored pairing. -/
def verifyC8 : String → String → Bool := fun presented hash =>
  presented == "sk_live_abcdefgh-rest" && hash == "hash-of-the-key"

/-- A tenant whose state was last applied at timestamp 100, matched through
Stripe customer id `cus_1`. -/
def tenantC4 : TenantRow :=
  { id := "t4", plan_id := some "p1", subscription_status := "active",
    current_period_ends_at := some 200, external_subscription_id := some "sub4",
    external_customer_id := some "cus_1", updated_at := some 100 }

/-- Database holding `tenantC4`. -/
def dbC4 : Db :=
  { tenants := [tenantC4], users := [], roles := [], plans := [],
    usage_records := [], api_keys := [], webhook_events := [] }

/-- A late-arriving Stripe `invoice.payment_failed` created at timestamp 50,
older than the tenant's last update at 100. -/
def stripeStalePayload : StripePayload :=
  { id := "se1", event_kind := "invoice.payment_failed", created := 50,
    data_object := { client_reference_id := none, customer := some "cus_1",
                     mode := none, subscription := none, status := none,
                     cancel_at_period_end := false } }

/-- The stored event row for `stripeStalePayload`. -/
def stripeStaleEvent : WebhookEventRow := stripeNewRow stripeStalePayload

/-- A processing stub that succeeds without touching the database. -/
def proc0 : Db → WebhookEventRow → Except PyError Db := fun d _ => .ok d

/-- Database holding the Stripe event row `se1` already marked successfully
processed. -/
def dbS1 : Db :=
  { dbEmpty with webhook_events :=
      [{ stripeStaleEvent with processed_successfully := true }] }

/-- Database holding the Stripe event row `se1` from a previously failed
attempt (not marked successful). -/
def dbS2 : Db :=
  { dbEmpty with webhook_events := [stripeStaleEvent] }

/-- A processing stub that raises an unexpected exception. -/
def procBoom : Db → WebhookEventRow → Except PyError Db :=
  fun _ _ => .error (.exception "boom")

/-- A processing stub that raises the business 404 a missing tenant causes. -/
def procTenant404 : Db → WebhookEventRow → Except PyError Db :=
  fun _ _ => .error (.http 404 "Tenant for email x not found.")

/-- An admin-flagged role and a plain member role for tenant `t1`. -/
def rolesC7 : List UserRoleRow :=
  [{ id := "ra", tenant_id := "t1", name := "Admin",
     permission_set := some 16777215, is_admin_role := true },
   { id := "rm", tenant_id := "t1", name := "Member",
     permission_set := some 768, is_admin_role := false }]

/-- A tenant with a single admin-role holder `u1`. -/
def dbC7one : Db :=
  { tenants := [], plans := [], usage_records := [], api_keys := [], webhook_events := [],
    roles := rolesC7,
    users := [{ id := "u1", email := "a@t1.example", tenant_id := some "t1",
                role_id := some "ra", terms_accepted_at := some 1 }] }

/-- A tenant with two admin-role holders `u1` and `u2`. -/
def dbC7two : Db :=
  { tenants := [], plans := [], usage_records := [], api_keys := [], webhook_events := [],
    roles := rolesC7,
    users := [{ id := "u1", email := "a@t1.example", tenant_id := some "t1",
                role_id := some "ra", terms_accepted_at := some 1 },
              { id := "u2", email := "b@t1.example", tenant_id := some "t1",
                role_id := some "ra", terms_accepted_at := some 1 }] }

/-! ### Arithmetic facts about the bitmask encode/decode pair -/

lemma foldl_or_testBit (S : List String) (a : Nat) (i : Nat) :
    (S.foldl (fun mask p => mask ||| permissionValue p) a).testBit i =
      (a.testBit i || S.any (fun p => (permissionValue p).testBit i)) := by
  induction S generalizing a with
  | nil => simp
  | cons x xs ih => simp [List.foldl, ih, Nat.testBit_lor, Bool.or_assoc]

lemma testBit_to_permission_set_int (S : List String) (i : Nat) :
    (to_permission_set_int S).testBit i = S.any (fun p => (permissionValue p).testBit i) := by
  simp [to_permission_set_int, foldl_or_testBit]

lemma atomic_value_eq :
    ∀ p ∈ atomicPermissionNames, permissionValue p = 2 ^ permissionBitIndex p := by decide

lemma atomic_value_lt :
    ∀ p ∈ atomicPermissionNames, permissionValue p < 2 ^ 24 := by decide

lemma atomic_not_none :
    ∀ p ∈ atomicPermissionNames, p ≠ "NONE" := by decide

lemma atomic_testBit :
    ∀ p ∈ atomicPermissionNames, ∀ q ∈ atomicPermissionNames,
      (permissionValue p).testBit (permissionBitIndex q) = (p == q) := by decide

lemma members_names :
    ∀ m ∈ appPermissionMembers,
      m.1 = "NONE" ∨ m.1 = "TENANT_ADMIN_PERMISSIONS" ∨ m.1 ∈ atomicPermissionNames := by decide

lemma member_value : ∀ m ∈ appPermissionMembers, m.2 = permissionValue m.1 := by decide

lemma atomic_mem_members :
    ∀ p ∈ atomicPermissionNames, (p, permissionValue p) ∈ appPermissionMembers := by decide

lemma and_two_pow_eq_iff (mask i : Nat) : (mask &&& 2 ^ i == 2 ^ i) = mask.testBit i := by
  rw [Nat.and_two_pow]
  have h2 : 0 < (2 : Nat) ^ i := pow_pos (by norm_num) i
  cases h : mask.testBit i
  · simp [beq_eq_false_iff_ne, h2.ne]
  · simp

lemma mem_roleReadPermissions_iff (mask : Nat) (n : String) :
    n ∈ roleReadPermissions (some mask) ↔
      ∃ v, (n, v) ∈ appPermissionMembers ∧ n ≠ "NONE" ∧ (mask &&& v == v) = true := by
  simp only [roleReadPermissions, Option.getD_some, List.mem_filterMap]
  constructor
  · rintro ⟨m, hm, hcond⟩
    by_cases hc : (m.1 != "NONE" && (mask &&& m.2 == m.2)) = true
    · rw [if_pos hc] at hcond
      obtain ⟨h1, h2⟩ := Bool.and_eq_true_iff.mp hc
      exact ⟨m.2, by simpa [← Option.some_inj.mp hcond] using hm,
             by simpa [← Option.some_inj.mp hcond] using bne_iff_ne.mp h1, h2⟩
    · rw [if_neg hc] at hcond
      exact absurd hcond (by simp)
  · rintro ⟨v, hv, hne, hcond⟩
    exact ⟨(n, v), hv, by simp [hcond, hne]⟩

lemma mask_high_bits (S : List String)
    (hS : ∀ p ∈ S, p ∈ atomicPermissionNames) :
    ∀ i, 24 ≤ i → (to_permission_set_int S).testBit i = false := by
  intro i hi
  rw [testBit_to_permission_set_int, List.any_eq_false]
  intro p hp
  have hval : permissionValue p < 2 ^ i :=
    lt_of_lt_of_le (atomic_value_lt p (hS p hp)) (Nat.pow_le_pow_right (by norm_num) hi)
  simp [Nat.testBit_lt_two_pow hval]

lemma full_mask_cond (S : List String)
    (hS : ∀ p ∈ S, p ∈ atomicPermissionNames)
    (hfull : to_permission_set_int S ≠ 16777215) :
    (to_permission_set_int S &&& 16777215 == 16777215) = false := by
  by_contra hc
  have heq : to_permission_set_int S &&& 16777215 = 16777215 :=
    beq_iff_eq.mp (Bool.of_not_eq_false hc)
  apply hfull
  apply Nat.eq_of_testBit_eq
  intro i
  have hfull24 : (16777215 : Nat) = 2 ^ 24 - 1 := by norm_num
  have hbit : (16777215 : Nat).testBit i = decide (i < 24) := by
    rw [hfull24]; exact Nat.testBit_two_pow_sub_one 24 i
  have hland := congrArg (fun x => x.testBit i) heq
  simp only [Nat.testBit_land] at hland
  by_cases h24 : i < 24
  · have ht : (16777215 : Nat).testBit i = true := by rw [hbit]; simp [h24]
    rw [ht] at hland
    rw [ht]
    simpa using hland
  · have ht : (16777215 : Nat).testBit i = false := by rw [hbit]; simp [h24]
    rw [ht, mask_high_bits S hS i (Nat.le_of_not_lt h24)]

/-- Reassigning a role changes only the `role_id` of the targeted user, so
looking that user up afterwards returns the updated row. -/
lemma find_reassign (users : List UserRow) (uid rid : String) :
    (users.map (fun u =>
        if u.id == uid then { u with role_id := some rid } else u)).find?
        (fun u => u.id == uid) =
      (users.find? (fun u => u.id == uid)).map
        (fun u => { u with role_id := some rid }) := by
  induction users with
  | nil => rfl
  | cons x xs ih =>
    rw [List.map_cons, List.find?_cons, List.find?_cons]
    by_cases h : (x.id == uid) = true
    · simp [h]
    · simpa [h] using ih

/-! ## Claim theorems -/

/-- C9 (counterexample): encoding and decoding is *not* lossless over every
set of defined permission names.  The set of all twenty-four single-bit names
is a valid permission set for role creation, but reading the stored bitmask
back additionally yields the alias name `TENANT_ADMIN_PERMISSIONS`, which the
created set did not contain, because `__members__` of the Flag enum lists the
composite alias and all of its bits are set. -/
theorem C9_roundtrip_counterexample :
    (∀ p ∈ atomicPermissionNames, validPermissionName p = true) ∧
    "TENANT_ADMIN_PERMISSIONS" ∈
      roleReadPermissions (some (to_permission_set_int atomicPermissionNames)) ∧
    "TENANT_ADMIN_PERMISSIONS" ∉ atomicPermissionNames := by decide

/-- C9 (amended): for every set of canonical single-bit permission names
whose encoded bitmask is not the full admin mask 16777215, a role created
with that set reads back as exactly that set, no more and no fewer.  (When
the mask is full — the set of all twenty-four names — the decoded list
additionally contains the composite alias `TENANT_ADMIN_PERMISSIONS`;
creation sets naming `NONE` or the alias itself are likewise not read back
verbatim.)  In particular a role created with `ITEMS_READ` and `ITEMS_CREATE`
decodes to exactly those two names. -/
theorem C9_permission_roundtrip (S : List String)
    (hS : ∀ p ∈ S, p ∈ atomicPermissionNames)
    (hfull : to_permission_set_int S ≠ 16777215) :
    ∀ n, n ∈ roleReadPermissions (some (to_permission_set_int S)) ↔ n ∈ S := by
  intro n
  rw [mem_roleReadPermissions_iff]
  by_cases hn : n ∈ atomicPermissionNames
  · constructor
    · rintro ⟨v, hv_mem, hne, hcond⟩
      have hv : v = permissionValue n := by
        simpa using member_value (n, v) hv_mem
      rw [hv, atomic_value_eq n hn, and_two_pow_eq_iff,
          testBit_to_permission_set_int] at hcond
      obtain ⟨p, hpS, hp⟩ := List.any_eq_true.mp hcond
      have hpn : (p == n) = true := by
        rw [← atomic_testBit p (hS p hpS) n hn]
        exact hp
      exact beq_iff_eq.mp hpn ▸ hpS
    · intro hnS
      refine ⟨permissionValue n, atomic_mem_members n hn, atomic_not_none n hn, ?_⟩
      rw [atomic_value_eq n hn, and_two_pow_eq_iff, testBit_to_permission_set_int]
      refine List.any_eq_true.mpr ⟨n, hnS, ?_⟩
      rw [atomic_testBit n hn n hn]
      simp
  · have hnS : n ∉ S := fun h => hn (hS n h)
    simp only [hnS, iff_false]
    rintro ⟨v, hv_mem, hne, hcond⟩
    rcases members_names (n, v) hv_mem with h | h | h
    · exact hne h
    · have hadmin : permissionValue "TENANT_ADMIN_PERMISSIONS" = 16777215 := by decide
      have hv : v = 16777215 := by
        have h2 := member_value (n, v) hv_mem
        rw [h] at h2
        simpa [hadmin] using h2
      rw [hv, full_mask_cond S hS hfull] at hcond
      exact Bool.false_ne_true hcond
    · exact hn h

/-- C9 (witness): the amended theorem applied to the concrete creation set
`ITEMS_READ`, `ITEMS_CREATE`. -/
theorem C9_permission_roundtrip_witness :
    ((∀ p ∈ (["ITEMS_READ", "ITEMS_CREATE"] : List String), p ∈ atomicPermissionNames) ∧
      to_permission_set_int ["ITEMS_READ", "ITEMS_CREATE"] ≠ 16777215) ∧
    ("ITEMS_READ" ∈
        roleReadPermissions (some (to_permission_set_int ["ITEMS_READ", "ITEMS_CREATE"])) ↔
      "ITEMS_READ" ∈ (["ITEMS_READ", "ITEMS_CREATE"] : List String)) ∧
    ("TENANT_ADMIN_PERMISSIONS" ∈
        roleReadPermissions (some (to_permission_set_int ["ITEMS_READ", "ITEMS_CREATE"])) ↔
      "TENANT_ADMIN_PERMISSIONS" ∈ (["ITEMS_READ", "ITEMS_CREATE"] : List String)) :=
  ⟨⟨by decide, by decide⟩,
   C9_permission_roundtrip ["ITEMS_READ", "ITEMS_CREATE"] (by decide) (by decide) "ITEMS_READ",
   C9_permission_roundtrip ["ITEMS_READ", "ITEMS_CREATE"] (by decide) (by decide)
     "TENANT_ADMIN_PERMISSIONS"⟩

/-- C10: for every entitlement of type `LIMIT` whose feature slug is anything
other than `max_users`, the entitlement check performs no count comparison
and allows the request regardless of the database contents — only the
`max_users` slug is enforced against the live user count. -/
theorem C10_limit_only_max_users (db : Db) (user : AuthenticatedUser)
    (feature_slug : String) (consumed_amount : Int)
    (tenant : TenantRow) (plan : PlanRow) (entitlement : PlanEntitlementRow)
    (hsuper : user.is_superadmin = false)
    (htenant : findTenant db user.tenant_id = some tenant)
    (hplan : tenantPlan db tenant = some plan)
    (hactive : tenant.subscription_status = "active")
    (hent : plan.entitlements.find? (fun e => e.feature_slug == feature_slug) =
      some entitlement)
    (htype : entitlement.entitlement_type = "LIMIT")
    (hslug : feature_slug ≠ "max_users") :
    check_entitlement feature_slug consumed_amount db user = .ok () := by
  simp [check_entitlement, hsuper, htenant, hplan, hactive, hent, htype, hslug]

/-- C10 (witness): a `LIMIT` entitlement on `max_projects` of value 1 is not
enforced — the check passes although the tenant has three users. -/
theorem C10_limit_only_max_users_witness :
    tenantUserCount dbC10 (some "t1") = 3 ∧
    check_entitlement "max_projects" 1 dbC10 userC3 = .ok () :=
  ⟨by decide,
   C10_limit_only_max_users dbC10 userC3 "max_projects" 1 tenantC10 planC10
     { feature_slug := "max_projects", entitlement_type := "LIMIT", value := 1 }
     (by decide) (by decide) (by decide) (by decide) (by decide) (by decide)
     (by decide)⟩

/-- C6: the permission check allows a superadmin; fails 403 when the
re-fetched user has no assigned role; and otherwise allows exactly when every
bit of the required permission is inside the role's `permission_set`, the
failure naming the missing permission. -/
theorem C6_require_permission (required : String) (db : Db) (user : AuthenticatedUser) :
    (user.is_superadmin = true → require_permission required db user = .ok ()) ∧
    (user.is_superadmin = false →
      (db.users.find? (fun u => u.id == user.id)).bind
          (fun u => u.role_id.bind (fun rid => db.roles.find? (fun r => r.id == rid))) =
        none →
      require_permission required db user = .error (.http 403 "User has no assigned role.")) ∧
    (∀ db_user role,
      user.is_superadmin = false →
      db.users.find? (fun u => u.id == user.id) = some db_user →
      db_user.role_id.bind (fun rid => db.roles.find? (fun r => r.id == rid)) = some role →
      ((require_permission required db user = .ok ()) ↔
        ((role.permission_set.getD 0 &&& permissionValue required) ==
          permissionValue required) = true) ∧
      (((role.permission_set.getD 0 &&& permissionValue required) ==
          permissionValue required) = false →
        require_permission required db user =
          .error (.http 403 ("User lacks " ++ permissionName required ++ " permission.")))) := by
  refine ⟨fun hsuper => by simp [require_permission, hsuper], ?_, ?_⟩
  · intro hsuper hnone
    cases hfind : db.users.find? (fun u => u.id == user.id) with
    | none => simp [require_permission, hsuper, hfind]
    | some db_user =>
      rw [hfind, Option.some_bind] at hnone
      simp [require_permission, hsuper, hfind, hnone]
  · intro db_user role hsuper hfind hrole
    constructor
    · constructor
      · intro hok
        by_contra hbit
        simp [require_permission, hsuper, hfind, hrole,
              Bool.eq_false_iff.mpr hbit] at hok
      · intro hbit
        simp [require_permission, hsuper, hfind, hrole, hbit]
    · intro hbit
      simp [require_permission, hsuper, hfind, hrole, hbit]

/-- C6 (witness): the check at a concrete role holding `ITEMS_READ` and
`ITEMS_CREATE`: superadmins pass, `ITEMS_READ` is allowed, `USERS_DELETE` is
refused naming the permission, and a user with no role fails 403. -/
theorem C6_require_permission_witness :
    require_permission "ITEMS_READ" dbC6 superUser0 = .ok () ∧
    require_permission "ITEMS_READ" dbC6 editorUser0 = .ok () ∧
    require_permission "USERS_DELETE" dbC6 editorUser0 =
      .error (.http 403 "User lacks USERS_DELETE permission.") ∧
    require_permission "ITEMS_READ" dbC6 rolelessUser0 =
      .error (.http 403 "User has no assigned role.") :=
  ⟨(C6_require_permission "ITEMS_READ" dbC6 superUser0).1 (by decide),
   ((C6_require_permission "ITEMS_READ" dbC6 editorUser0).2.2
      { id := "u1", email := "e@t1.example", tenant_id := some "t1",
        role_id := some "r1", terms_accepted_at := some 1 }
      { id := "r1", tenant_id := "t1", name := "Editor",
        permission_set := some 768, is_admin_role := false }
      (by decide) (by decide) (by decide)).1.mpr (by decide),
   ((C6_require_permission "USERS_DELETE" dbC6 editorUser0).2.2
      { id := "u1", email := "e@t1.example", tenant_id := some "t1",
        role_id := some "r1", terms_accepted_at := some 1 }
      { id := "r1", tenant_id := "t1", name := "Editor",
        permission_set := some 768, is_admin_role := false }
      (by decide) (by decide) (by decide)).2 (by decide),
   (C6_require_permission "ITEMS_READ" dbC6 rolelessUser0).2.1 (by decide) (by decide)⟩

/-- C5: the terms-of-service gate: a superadmin is exempt; an authenticated
non-superadmin whose profile is missing or lacks a terms-acceptance timestamp
makes the guard chain of the invite endpoint fail with 403 and the
`TERMS_NOT_ACCEPTED` error code — for every database state, i.e. regardless
of the caller's role, permissions, plan or usage, so the failure precedes the
permission and entitlement checks. -/
theorem C5_terms_gate (db : Db) (user : AuthenticatedUser) :
    (user.is_superadmin = true → require_terms_accepted db user = .ok ()) ∧
    (user.is_superadmin = false →
      (db.users.find? (fun u => u.id == user.id) = none ∨
        (∃ db_user, db.users.find? (fun u => u.id == user.id) = some db_user ∧
          db_user.terms_accepted_at = none)) →
      invite_guard_chain db user =
        .error (.httpCoded 403 "TERMS_NOT_ACCEPTED" "Terms of Service not accepted.")) := by
  constructor
  · intro hsuper
    simp [require_terms_accepted, hsuper]
  · intro hsuper hterms
    have hgate : require_terms_accepted db user = .error termsNotAcceptedError := by
      rcases hterms with hnone | ⟨db_user, hfind, hts⟩
      · simp [require_terms_accepted, hsuper, hnone]
      · simp [require_terms_accepted, hsuper, hfind, hts]
    simp [invite_guard_chain, hgate, termsNotAcceptedError, Bind.bind, Except.bind]

/-- C5 (witness): the gate applied to a superadmin and to a concrete caller
whose profile has `terms_accepted_at = None` in a database where that caller
holds a fully-permissioned role and an active plan. -/
theorem C5_terms_gate_witness :
    require_terms_accepted dbC5 superUser0 = .ok () ∧
    invite_guard_chain dbC5 noTermsUser0 =
      .error (.httpCoded 403 "TERMS_NOT_ACCEPTED" "Terms of Service not accepted.") :=
  ⟨(C5_terms_gate dbC5 superUser0).1 (by decide),
   (C5_terms_gate dbC5 noTermsUser0).2 (by decide)
     (Or.inr ⟨{ id := "u9", email := "n@t1.example", tenant_id := some "t1",
                role_id := some "r1", terms_accepted_at := none }, by decide, by decide⟩)⟩

/-- C8: the superadmin flag of a bearer-token identity is exactly the
equality of the token's subject with the configured superadmin id, so it
depends on no other claim (two tokens with the same subject resolve the same
flag); and every identity resolved through the API-key path carries
`is_superadmin = false`. -/
theorem C8_superadmin_resolution (settings : Settings) (db : Db) :
    (∀ payload user, resolve_jwt_identity settings db payload = .ok user →
      user.is_superadmin = (payload.sub == some settings.SUPERADMIN_USER_ID)) ∧
    (∀ p1 p2 u1 u2, p1.sub = p2.sub →
      resolve_jwt_identity settings db p1 = .ok u1 →
      resolve_jwt_identity settings db p2 = .ok u2 →
      u1.is_superadmin = u2.is_superadmin) ∧
    (∀ verify api_key user,
      resolve_api_key_identity verify db api_key = .ok user →
      user.is_superadmin = false) := by
  have hjwt : ∀ payload user, resolve_jwt_identity settings db payload = .ok user →
      user.is_superadmin = (payload.sub == some settings.SUPERADMIN_USER_ID) := by
    intro payload user h
    rw [resolve_jwt_identity] at h
    split at h
    · exact absurd h (by simp)
    · rename_i user_id hs
      split at h
      · exact absurd h (by simp)
      · dsimp only at h
        split at h
        · exact absurd h (by simp)
        · rw [← Except.ok.inj h, hs]
          rfl
  refine ⟨hjwt, ?_, ?_⟩
  · intro p1 p2 u1 u2 hsub h1 h2
    rw [hjwt p1 u1 h1, hjwt p2 u2 h2, hsub]
  · intro verify api_key user h
    rw [resolve_api_key_identity] at h
    split at h
    · exact absurd h (by simp)
    · dsimp only at h
      split at h
      · exact absurd h (by simp)
      · split at h
        · exact absurd h (by simp)
        · split at h
          · exact absurd h (by simp)
          · rw [← Except.ok.inj h]

/-- C8 (witness): a concrete configuration where the token subject equals the
configured superadmin id (flag true), a second token with the same subject
but different extra claims (same flag), and an API-key resolution (flag
false). -/
theorem C8_superadmin_resolution_witness :
    resolve_jwt_identity settingsC8 dbC8 jwtAdmin0 =
      .ok { id := "admin-1", tenant_id := none, email := some "root@example.com",
            is_superadmin := true } ∧
    ({ id := "admin-1", tenant_id := none, email := some "root@example.com",
       is_superadmin := true } : AuthenticatedUser).is_superadmin =
      (jwtAdmin0.sub == some settingsC8.SUPERADMIN_USER_ID) ∧
    resolve_api_key_identity verifyC8 dbC8 "sk_live_abcdefgh-rest" =
      .ok { id := "u1", tenant_id := some "t1", email := some "e@t1.example",
            is_superadmin := false } ∧
    ({ id := "u1", tenant_id := some "t1", email := some "e@t1.example",
       is_superadmin := false } : AuthenticatedUser).is_superadmin = false :=
  ⟨by rfl,
   (C8_superadmin_resolution settingsC8 dbC8).1 jwtAdmin0 _ (by rfl),
   by rfl,
   (C8_superadmin_resolution settingsC8 dbC8).2.2 verifyC8 "sk_live_abcdefgh-rest" _
     (by rfl)⟩

/-- C3 (code bug): with 80 units of usage recorded inside the current
billing window and a `METER` cap of 100, the claim requires consuming 21 to
fail with 402 and consuming 20 to succeed; instead both evaluations abort
with `NameError` on the unbound name `timedelta`
(app/crud/usage_crud.py imports only `datetime` from `datetime`), because the
usage query is never reached once a period end exists. -/
theorem C3_meter_check_raises_nameError :
    get_current_usage dbC3 (some "t1") "api_calls" = .error (.nameError "timedelta") ∧
    check_entitlement "api_calls" 20 dbC3 userC3 = .error (.nameError "timedelta") ∧
    check_entitlement "api_calls" 21 dbC3 userC3 = .error (.nameError "timedelta") := by
  refine ⟨rfl, rfl, rfl⟩

/-- C4: a stale event never regresses tenant state.  For Stripe, once the
tenant resolves and carries an `updated_at` newer than the event's `created`
timestamp, processing returns the database unchanged and succeeds; for Dodo,
once the tenant resolves and carries a `current_period_ends_at` newer than
the payload timestamp, processing returns the database unchanged and
succeeds — in both cases regardless of the event type and delivery order. -/
theorem C4_out_of_order_protection :
    (∀ (retrieve : String → Except String StripeSubscription) (db : Db)
        (event : WebhookEventRow) (event_kind : String) (payload : StripePayload)
        (tenant : TenantRow) (last_update : Int),
      event.event_type = some event_kind →
      event.payload = .stripe payload →
      resolve_stripe_tenant db event_kind payload.data_object = .ok (some tenant) →
      tenant.updated_at = some last_update →
      payload.created < last_update →
      process_stripe_event retrieve db event = .ok db) ∧
    (∀ (db : Db) (event : WebhookEventRow) (payload : DodoPayload)
        (ts : Int) (sid em : String) (user : UserRow) (tid : String)
        (tenant : TenantRow) (period_end : Int),
      event.payload = .dodo payload →
      payload.timestamp = some ts →
      payload.data.subscription_id = some sid →
      sid.isEmpty = false →
      payload.data.customer.email = some em →
      em.isEmpty = false →
      db.users.find? (fun u => u.email == em) = some user →
      user.tenant_id = some tid →
      db.tenants.find? (fun t => t.id == tid) = some tenant →
      tenant.current_period_ends_at = some period_end →
      ts < period_end →
      process_event db event = .ok db) := by
  constructor
  · intro retrieve db event event_kind payload tenant last_update het hep hres hupd hlt
    simp [process_stripe_event, het, hep, hres, hupd, hlt]
  · intro db event payload ts sid em user tid tenant period_end
    intro hep hts hsid hsidne hem hemne huser htid htenant hpe hlt
    simp [process_event, hep, hts, hsid, hem, truthy, hsidne, hemne,
          huser, htid, htenant, hpe, hlt]

/-- C4 (witness): a Stripe `invoice.payment_failed` created at 50 against a
tenant updated at 100, and the Dodo event `evt_1` timestamped 5 against a
tenant whose period ends at 10000000 — both are skipped, leaving the
database exactly as it was. -/
theorem C4_out_of_order_protection_witness :
    process_stripe_event retrieve0 dbC4 stripeStaleEvent = .ok dbC4 ∧
    process_event dbC3 (dodoNewRow "evt_1" dodoPayload0) = .ok dbC3 :=
  ⟨C4_out_of_order_protection.1 retrieve0 dbC4 stripeStaleEvent
      "invoice.payment_failed" stripeStalePayload tenantC4 100
      (by rfl) (by rfl) (by rfl) (by rfl) (by decide),
   C4_out_of_order_protection.2 dbC3 (dodoNewRow "evt_1" dodoPayload0) dodoPayload0
      5 "sub1" "owner@t1.example"
      { id := "u1", email := "owner@t1.example", tenant_id := some "t1",
        role_id := none, terms_accepted_at := some 1 }
      "t1" tenantC3 10000000
      (by rfl) (by rfl) (by rfl) (by rfl) (by rfl) (by rfl) (by rfl) (by rfl)
      (by rfl) (by rfl) (by norm_num)⟩

/-- C1 (counterexample): the Dodo handler short-circuits on *any* existing
`WebhookEvent` row, not only on one marked `processed_successfully`.  Here the
row for `evt_1` exists from a failed attempt (`processed_successfully =
false`), yet a verified redelivery is acknowledged as a duplicate with the
database unchanged, instead of being reprocessed using that row as the claim
requires. -/
theorem C1_webhook_idempotency_counterexample :
    (dbC1.webhook_events.find? (fun e => e.id == "evt_1")).map
        (fun e => e.processed_successfully) = some false ∧
    handle_dodo_webhook process_event dbC1 "evt_1" (.ok dodoPayload0) =
      (dbC1, .duplicate) := by
  exact ⟨rfl, rfl⟩

/-- C1 (amended): for the Stripe handler the claim holds as stated: a
verified delivery short-circuits to a duplicate acknowledgment exactly when a
row with the event id exists *and* is marked successful; an existing
unsuccessful row is reprocessed using that same row; a fresh event id has its
row inserted (flushed) before business logic runs.  The Dodo handler instead
short-circuits whenever *any* row with the event id exists, regardless of the
`processed_successfully` flag — a previously failed Dodo delivery is never
reprocessed — while fresh Dodo event ids are inserted (and committed) before
business logic begins. -/
theorem C1_webhook_idempotency (process : Db → WebhookEventRow → Except PyError Db) :
    (∀ db event row,
      db.webhook_events.find? (fun e => e.id == event.id) = some row →
      row.processed_successfully = true →
      handle_stripe_webhook process db (.ok event) = (db, .duplicate)) ∧
    (∀ db event row db2,
      db.webhook_events.find? (fun e => e.id == event.id) = some row →
      row.processed_successfully = false →
      process db row = .ok db2 →
      handle_stripe_webhook process db (.ok event) =
        (Db.markEventProcessed db2 event.id, .processed)) ∧
    (∀ db event row,
      db.webhook_events.find? (fun e => e.id == event.id) = some row →
      row.processed_successfully = false →
      (handle_stripe_webhook process db (.ok event)).2 ≠ .duplicate) ∧
    (∀ db event,
      db.webhook_events.find? (fun e => e.id == event.id) = none →
      (db.insertEvent (stripeNewRow event)).webhook_events.find?
          (fun e => e.id == event.id) = some (stripeNewRow event) ∧
      (∀ db2,
        process (db.insertEvent (stripeNewRow event)) (stripeNewRow event) = .ok db2 →
        handle_stripe_webhook process db (.ok event) =
          (Db.markEventProcessed db2 event.id, .processed))) ∧
    (∀ db event_id payload row,
      db.webhook_events.find? (fun e => e.id == event_id) = some row →
      handle_dodo_webhook process db event_id (.ok payload) = (db, .duplicate)) ∧
    (∀ db event_id payload,
      db.webhook_events.find? (fun e => e.id == event_id) = none →
      (db.insertEvent (dodoNewRow event_id payload)).webhook_events.find?
          (fun e => e.id == event_id) = some (dodoNewRow event_id payload) ∧
      (handle_dodo_webhook process db event_id (.ok payload)).2 ≠ .duplicate ∧
      (∀ db2,
        process (db.insertEvent (dodoNewRow event_id payload))
            (dodoNewRow event_id payload) = .ok db2 →
        handle_dodo_webhook process db event_id (.ok payload) =
          (Db.markEventProcessed db2 event_id, .processed))) := by
  refine ⟨?_, ?_, ?_, ?_, ?_, ?_⟩
  · intro db event row hfind hproc
    simp [handle_stripe_webhook, hfind, hproc]
  · intro db event row db2 hfind hproc hres
    simp [handle_stripe_webhook, hfind, hproc, hres]
  · intro db event row hfind hproc
    cases hres : process db row with
    | ok db2 => simp [handle_stripe_webhook, hfind, hproc, hres]
    | error e => cases e <;> simp [handle_stripe_webhook, hfind, hproc, hres]
  · intro db event hfind
    constructor
    · simp [Db.insertEvent, List.find?_append, hfind, stripeNewRow]
    · intro db2 hres
      simp [handle_stripe_webhook, hfind, hres]
  · intro db event_id payload row hfind
    simp [handle_dodo_webhook, hfind]
  · intro db event_id payload hfind
    refine ⟨?_, ?_, ?_⟩
    · simp [Db.insertEvent, List.find?_append, hfind, dodoNewRow]
    · cases hres : process (db.insertEvent (dodoNewRow event_id payload))
          (dodoNewRow event_id payload) with
      | ok db2 => simp [handle_dodo_webhook, hfind, hres]
      | error e => cases e <;> simp [handle_dodo_webhook, hfind, hres]
    · intro db2 hres
      simp [handle_dodo_webhook, hfind, hres]

/-- C1 (witness): the amended theorem applied to concrete states: an already
successful Stripe row short-circuits, a failed Stripe row is reprocessed and
marked, a fresh Stripe event is inserted before processing, an existing Dodo
row short-circuits, and a fresh Dodo event is inserted and processed. -/
theorem C1_webhook_idempotency_witness :
    handle_stripe_webhook proc0 dbS1 (.ok stripeStalePayload) = (dbS1, .duplicate) ∧
    handle_stripe_webhook proc0 dbS2 (.ok stripeStalePayload) =
      (Db.markEventProcessed dbS2 stripeStalePayload.id, .processed) ∧
    (handle_stripe_webhook proc0 dbS2 (.ok stripeStalePayload)).2 ≠ .duplicate ∧
    (dbEmpty.insertEvent (stripeNewRow stripeStalePayload)).webhook_events.find?
        (fun e => e.id == stripeStalePayload.id) = some (stripeNewRow stripeStalePayload) ∧
    handle_dodo_webhook proc0 dbC1 "evt_1" (.ok dodoPayload0) = (dbC1, .duplicate) ∧
    handle_dodo_webhook proc0 dbEmpty "evt_9" (.ok dodoPayload0) =
      (Db.markEventProcessed (dbEmpty.insertEvent (dodoNewRow "evt_9" dodoPayload0))
        "evt_9", .processed) :=
  ⟨(C1_webhook_idempotency proc0).1 dbS1 stripeStalePayload
      { stripeStaleEvent with processed_successfully := true } (by rfl) (by rfl),
   (C1_webhook_idempotency proc0).2.1 dbS2 stripeStalePayload stripeStaleEvent dbS2
      (by rfl) (by rfl) (by rfl),
   (C1_webhook_idempotency proc0).2.2.1 dbS2 stripeStalePayload stripeStaleEvent
      (by rfl) (by rfl),
   ((C1_webhook_idempotency proc0).2.2.2.1 dbEmpty stripeStalePayload (by rfl)).1,
   (C1_webhook_idempotency proc0).2.2.2.2.1 dbC1 "evt_1" dodoPayload0
      (dodoNewRow "evt_1" dodoPayload0) (by rfl),
   ((C1_webhook_idempotency proc0).2.2.2.2.2 dbEmpty "evt_9" dodoPayload0 (by rfl)).2.2
      (dbEmpty.insertEvent (dodoNewRow "evt_9" dodoPayload0)) (by rfl)⟩

/-- C2 (counterexample): a Stripe signature-verification failure is *not*
rejected with a non-2xx response: the handler catches the 400
`HTTPException` raised by verification and returns an error body, which the
route serves with HTTP 200. -/
theorem C2_webhook_failure_semantics_counterexample :
    handle_stripe_webhook (process_stripe_event retrieve0) dbEmpty
        (.error (.http 400 "Missing Stripe-Signature header.")) =
      (dbEmpty, .sigError "Missing Stripe-Signature header.") ∧
    StripeResponse.httpStatus (.sigError "Missing Stripe-Signature header.") = 200 := by
  exact ⟨rfl, rfl⟩

/-- C2 (amended): failure semantics of the two webhook handlers.  The Dodo
handler rejects a signature failure with 400 and no state change; the Stripe
handler instead returns the caught verification `HTTPException` as a body
served with 200 (state unchanged), and only a non-`HTTPException`
verification error yields a non-2xx.  For both handlers a business
(`HTTPException`) failure during processing rolls back all tenant mutations
and is acknowledged with a 2xx, an unexpected failure rolls back and yields
500 so the provider retries, and every outcome other than a Dodo signature
rejection or an unexpected failure is a 2xx acknowledgment. -/
theorem C2_webhook_failure_semantics (process : Db → WebhookEventRow → Except PyError Db) :
    (∀ db event_id e,
      handle_dodo_webhook process db event_id (.error e) = (db, .badRequest) ∧
      DodoResponse.httpStatus .badRequest = 400) ∧
    (∀ db c d,
      handle_stripe_webhook process db (.error (.http c d)) = (db, .sigError d) ∧
      StripeResponse.httpStatus (.sigError d) = 200) ∧
    (∀ db e,
      PyError.isHTTPException e = false →
      handle_stripe_webhook process db (.error e) = (db, .unexpectedError) ∧
      StripeResponse.httpStatus .unexpectedError = 500) ∧
    (∀ db event_id payload c d,
      db.webhook_events.find? (fun e => e.id == event_id) = none →
      process (db.insertEvent (dodoNewRow event_id payload))
          (dodoNewRow event_id payload) = .error (.http c d) →
      handle_dodo_webhook process db event_id (.ok payload) =
        (db.insertEvent (dodoNewRow event_id payload), .businessError d) ∧
      (db.insertEvent (dodoNewRow event_id payload)).tenants = db.tenants ∧
      DodoResponse.httpStatus (.businessError d) = 202) ∧
    (∀ db event c d,
      db.webhook_events.find? (fun e => e.id == event.id) = none →
      process (db.insertEvent (stripeNewRow event)) (stripeNewRow event) =
        .error (.http c d) →
      handle_stripe_webhook process db (.ok event) = (db, .businessError d) ∧
      StripeResponse.httpStatus (.businessError d) = 200) ∧
    (∀ db event row c d,
      db.webhook_events.find? (fun e => e.id == event.id) = some row →
      row.processed_successfully = false →
      process db row = .error (.http c d) →
      handle_stripe_webhook process db (.ok event) = (db, .businessError d)) ∧
    (∀ db event_id payload e,
      db.webhook_events.find? (fun e2 => e2.id == event_id) = none →
      process (db.insertEvent (dodoNewRow event_id payload))
          (dodoNewRow event_id payload) = .error e →
      PyError.isHTTPException e = false →
      handle_dodo_webhook process db event_id (.ok payload) =
        (db.insertEvent (dodoNewRow event_id payload), .internalError) ∧
      DodoResponse.httpStatus .internalError = 500) ∧
    (∀ db event e,
      db.webhook_events.find? (fun e2 => e2.id == event.id) = none →
      process (db.insertEvent (stripeNewRow event)) (stripeNewRow event) = .error e →
      PyError.isHTTPException e = false →
      handle_stripe_webhook process db (.ok event) = (db, .unexpectedError)) ∧
    (∀ db event_id sig,
      (handle_dodo_webhook process db event_id sig).2 ≠ .badRequest →
      (handle_dodo_webhook process db event_id sig).2 ≠ .internalError →
      DodoResponse.httpStatus (handle_dodo_webhook process db event_id sig).2 = 202) ∧
    (∀ db sig,
      (handle_stripe_webhook process db sig).2 ≠ .unexpectedError →
      StripeResponse.httpStatus (handle_stripe_webhook process db sig).2 = 200) := by
  refine ⟨?_, ?_, ?_, ?_, ?_, ?_, ?_, ?_, ?_, ?_⟩
  · intro db event_id e
    exact ⟨by simp [handle_dodo_webhook], rfl⟩
  · intro db c d
    exact ⟨by simp [handle_stripe_webhook], rfl⟩
  · intro db e he
    refine ⟨?_, rfl⟩
    cases e with
    | http c d => simp [PyError.isHTTPException] at he
    | httpCoded c ec m => simp [PyError.isHTTPException] at he
    | nameError m => simp [handle_stripe_webhook]
    | exception m => simp [handle_stripe_webhook]
  · intro db event_id payload c d hfind hres
    exact ⟨by simp [handle_dodo_webhook, hfind, hres], by simp [Db.insertEvent], rfl⟩
  · intro db event c d hfind hres
    exact ⟨by simp [handle_stripe_webhook, hfind, hres], rfl⟩
  · intro db event row c d hfind hproc hres
    simp [handle_stripe_webhook, hfind, hproc, hres]
  · intro db event_id payload e hfind hres he
    refine ⟨?_, rfl⟩
    cases e with
    | http c d => simp [PyError.isHTTPException] at he
    | httpCoded c ec m => simp [PyError.isHTTPException] at he
    | nameError m => simp [handle_dodo_webhook, hfind, hres]
    | exception m => simp [handle_dodo_webhook, hfind, hres]
  · intro db event e hfind hres he
    cases e with
    | http c d => simp [PyError.isHTTPException] at he
    | httpCoded c ec m => simp [PyError.isHTTPException] at he
    | nameError m => simp [handle_stripe_webhook, hfind, hres]
    | exception m => simp [handle_stripe_webhook, hfind, hres]
  · intro db event_id sig h1 h2
    cases hr : (handle_dodo_webhook process db event_id sig).2 <;>
      simp_all [DodoResponse.httpStatus]
  · intro db sig h1
    cases hr : (handle_stripe_webhook process db sig).2 <;>
      simp_all [StripeResponse.httpStatus]

/-- C2 (witness): the amended theorem at concrete inputs: a rejected Dodo
signature (400), a 200-acknowledged Stripe signature failure, an acknowledged
business failure with the tenant table untouched, and a 500 on an unexpected
processing exception. -/
theorem C2_webhook_failure_semantics_witness :
    (handle_dodo_webhook procBoom dbEmpty "evt_1" (.error (.http 400 "Invalid headers or signature.")) =
        (dbEmpty, .badRequest) ∧
      DodoResponse.httpStatus .badRequest = 400) ∧
    (handle_stripe_webhook procBoom dbEmpty (.error (.http 400 "Invalid signature: bad")) =
        (dbEmpty, .sigError "Invalid signature: bad") ∧
      StripeResponse.httpStatus (.sigError "Invalid signature: bad") = 200) ∧
    (handle_dodo_webhook procTenant404 dbEmpty "evt_1" (.ok dodoPayload0) =
        (dbEmpty.insertEvent (dodoNewRow "evt_1" dodoPayload0),
          .businessError "Tenant for email x not found.") ∧
      (dbEmpty.insertEvent (dodoNewRow "evt_1" dodoPayload0)).tenants = dbEmpty.tenants ∧
      DodoResponse.httpStatus (.businessError "Tenant for email x not found.") = 202) ∧
    (handle_dodo_webhook procBoom dbEmpty "evt_1" (.ok dodoPayload0) =
        (dbEmpty.insertEvent (dodoNewRow "evt_1" dodoPayload0), .internalError) ∧
      DodoResponse.httpStatus .internalError = 500) :=
  ⟨(C2_webhook_failure_semantics procBoom).1 dbEmpty "evt_1"
      (.http 400 "Invalid headers or signature."),
   (C2_webhook_failure_semantics procBoom).2.1 dbEmpty 400 "Invalid signature: bad",
   (C2_webhook_failure_semantics procTenant404).2.2.2.1 dbEmpty "evt_1" dodoPayload0
      404 "Tenant for email x not found." (by rfl) (by rfl),
   (C2_webhook_failure_semantics procBoom).2.2.2.2.2.2.1 dbEmpty "evt_1" dodoPayload0
      (.exception "boom") (by rfl) (by rfl) (by rfl)⟩

/-- C7 (code-bug evidence and crud-level correctness): the `update_user_role`
CRUD function itself satisfies the claim — demoting the sole admin-role
holder of a tenant fails with the descriptive last-admin error and produces
no updated state, while a tenant with two admin-role holders can have one
demoted, after which the user's role is the new one.  The route wiring,
however, passes keyword arguments `user_id` and `role_id` that are not among
the function's parameter names, so the endpoint raises `TypeError` instead of
reaching this logic. -/
theorem C7_last_admin_safeguard :
    ("user_id" ∈ update_user_profile_call_kwargs ∧
      "user_id" ∉ update_user_role_param_names ∧
      "role_id" ∈ update_user_profile_call_kwargs ∧
      "role_id" ∉ update_user_role_param_names) ∧
    (∀ db uid rid user_to_update current_role new_role,
      db.users.find? (fun u => u.id == uid) = some user_to_update →
      db.roles.find? (fun r => r.id == rid) = some new_role →
      user_to_update.role_id.bind (fun i => db.roles.find? (fun r => r.id == i)) =
        some current_role →
      current_role.is_admin_role = true →
      new_role.is_admin_role = false →
      tenantAdminCount db user_to_update.tenant_id = 1 →
      update_user_role db uid rid =
        .error "Cannot remove the last admin from the tenant. Please assign a new admin first.") ∧
    (∀ db uid rid user_to_update current_role new_role,
      db.users.find? (fun u => u.id == uid) = some user_to_update →
      db.roles.find? (fun r => r.id == rid) = some new_role →
      user_to_update.role_id.bind (fun i => db.roles.find? (fun r => r.id == i)) =
        some current_role →
      current_role.is_admin_role = true →
      new_role.is_admin_role = false →
      tenantAdminCount db user_to_update.tenant_id = 2 →
      update_user_role db uid rid = .ok (reassignRole db uid rid) ∧
      ((reassignRole db uid rid).users.find? (fun u => u.id == uid)).map
          (fun u => u.role_id) = some (some rid)) := by
  refine ⟨by decide, ?_, ?_⟩
  · intro db uid rid user_to_update current_role new_role
    intro hfindu hfindr hcur hadmin hnew hcount
    simp [update_user_role, hfindu, hfindr, hcur, hadmin, hnew, hcount]
  · intro db uid rid user_to_update current_role new_role
    intro hfindu hfindr hcur hadmin hnew hcount
    constructor
    · simp [update_user_role, hfindu, hfindr, hcur, hadmin, hnew, hcount]
    · dsimp only [reassignRole]
      rw [find_reassign, hfindu]
      rfl

/-- C7 (witness): with roles `Admin`/`Member` in tenant `t1`, demoting the
sole admin `u1` fails with the last-admin error, while with two admins
demoting `u1` succeeds and the stored role becomes `rm`. -/
theorem C7_last_admin_safeguard_witness :
    tenantAdminCount dbC7one (some "t1") = 1 ∧
    update_user_role dbC7one "u1" "rm" =
      .error "Cannot remove the last admin from the tenant. Please assign a new admin first." ∧
    tenantAdminCount dbC7two (some "t1") = 2 ∧
    update_user_role dbC7two "u1" "rm" = .ok (reassignRole dbC7two "u1" "rm") ∧
    ((reassignRole dbC7two "u1" "rm").users.find? (fun u => u.id == "u1")).map
      (fun u => u.role_id) = some (some "rm") :=
  ⟨by rfl,
   C7_last_admin_safeguard.2.1 dbC7one "u1" "rm"
     { id := "u1", email := "a@t1.example", tenant_id := some "t1",
       role_id := some "ra", terms_accepted_at := some 1 }
     { id := "ra", tenant_id := "t1", name := "Admin",
       permission_set := some 16777215, is_admin_role := true }
     { id := "rm", tenant_id := "t1", name := "Member",
       permission_set := some 768, is_admin_role := false }
     (by rfl) (by rfl) (by rfl) (by rfl) (by rfl) (by rfl),
   by rfl,
   (C7_last_admin_safeguard.2.2 dbC7two "u1" "rm"
     { id := "u1", email := "a@t1.example", tenant_id := some "t1",
       role_id := some "ra", terms_accepted_at := some 1 }
     { id := "ra", tenant_id := "t1", name := "Admin",
       permission_set := some 16777215, is_admin_role := true }
     { id := "rm", tenant_id := "t1", name := "Member",
       permission_set := some 768, is_admin_role := false }
     (by rfl) (by rfl) (by rfl) (by rfl) (by rfl) (by rfl)).1,
   (C7_last_admin_safeguard.2.2 dbC7two "u1" "rm"
     { id := "u1", email := "a@t1.example", tenant_id := some "t1",
       role_id := some "ra", terms_accepted_at := some 1 }
     { id := "ra", tenant_id := "t1", name := "Admin",
       permission_set := some 16777215, is_admin_role := true }
     { id := "rm", tenant_id := "t1", name := "Member",
       permission_set := some 768, is_admin_role := false }
     (by rfl) (by rfl) (by rfl) (by rfl) (by rfl) (by rfl)).2⟩

end FastapiBackend
